import Mathlib

/-!
# Shallow embedding of the EverMemOS MCP server

This file embeds the two source modules of the repository —
`evermemos_client.py` (the HTTP client: configuration resolution and request
construction) and `server.py` (the four MCP tools and the pure result
formatters) — and proves the specification's claims about them.

Modelling conventions:
* JSON/Python values handled by the formatters are modelled by the mutual
  inductive `PyVal`/`PyList`/`PyDict` (string-keyed dicts, as produced by
  `json` decoding).  Python floats are modelled as exact decimals
  `m / 10^e` (the values that flow through the formatter come from decoded
  JSON literals); `bool` counts as a number for `isinstance(_, (int, float))`,
  as in Python.
* Python runtime errors raised by the formatter (`TypeError`, `KeyError`, …)
  are modelled with an `Except PyErr` result; `str(e)` of such an error is
  modelled by `pyErrMsg`.
* Each network call is modelled by its request/argument record; the remote
  service's behaviour is a parameter (`respond`) returning either a decoded
  JSON body or the string rendering of the raised exception.
* Environment variables are explicit `Option String` records (`none` = unset).
-/

namespace EverMemOS

mutual
/-- A decoded JSON / Python value as handled by the server code. -/
inductive PyVal where
  | str (s : String)
  | int (n : Int)
  | bool (b : Bool)
  | float (m : Int) (e : Nat)
  | pynone
  | list (xs : PyList)
  | dict (kvs : PyDict)
deriving DecidableEq
inductive PyList where
  | nil
  | cons (v : PyVal) (tl : PyList)
deriving DecidableEq
inductive PyDict where
  | nil
  | cons (k : String) (v : PyVal) (tl : PyDict)
deriving DecidableEq
end

/-- The elements of a `PyList` as a Lean list. -/
def PyList.toList : PyList → List PyVal
  | .nil => []
  | .cons v tl => v :: tl.toList

/-- The entries of a `PyDict` as a Lean association list (insertion order). -/
def PyDict.toList : PyDict → List (String × PyVal)
  | .nil => []
  | .cons k v tl => (k, v) :: tl.toList

/-- Build a `PyList` from a Lean list (notation convenience). -/
def PyList.ofList : List PyVal → PyList
  | [] => .nil
  | v :: tl => .cons v (ofList tl)

/-- Build a `PyDict` from a Lean association list (notation convenience). -/
def PyDict.ofList : List (String × PyVal) → PyDict
  | [] => .nil
  | (k, v) :: tl => .cons k v (ofList tl)

/-- A JSON array value, from a Lean list. -/
def pyListOf (xs : List PyVal) : PyVal := .list (PyList.ofList xs)

/-- A JSON object value, from a Lean association list. -/
def pyDictOf (kvs : List (String × PyVal)) : PyVal := .dict (PyDict.ofList kvs)

/-- `d[k]` lookup on a string-keyed dict (first matching key). -/
def PyDict.lookup : PyDict → String → Option PyVal
  | .nil, _ => Option.none
  | .cons k v tl, key => if k = key then some v else tl.lookup key

/-- Python runtime errors the formatter code can raise. -/
inductive PyErr where
  | typeError
  | keyError
  | indexError
  | attributeError
  | valueError
deriving DecidableEq

/-- Stand-in for `str(e)` of a raised Python exception. -/
def pyErrMsg : PyErr → String
  | .typeError => "TypeError"
  | .keyError => "KeyError"
  | .indexError => "IndexError"
  | .attributeError => "AttributeError"
  | .valueError => "ValueError"

/-- Python truthiness of a value (`if v:`). -/
def pyTruthy : PyVal → Bool
  | .str s => s ≠ ""
  | .int n => n ≠ 0
  | .bool b => b
  | .float m _ => m ≠ 0
  | .pynone => false
  | .list xs => xs ≠ .nil
  | .dict kvs => kvs ≠ .nil

/-- `isinstance(v, (int, float))` — Python `bool` is a subclass of `int`. -/
def isNum : PyVal → Bool
  | .int _ => true
  | .float _ _ => true
  | .bool _ => true
  | _ => false

/-- `isinstance(v, dict)`. -/
def isDict : PyVal → Bool
  | .dict _ => true
  | _ => false

/-- `isinstance(v, list)`. -/
def isList : PyVal → Bool
  | .list _ => true
  | _ => false

/-- `len(v)`: defined for strings, lists and dicts; `TypeError` otherwise. -/
def pyLen : PyVal → Except PyErr Nat
  | .str s => .ok s.length
  | .list xs => .ok xs.toList.length
  | .dict kvs => .ok kvs.toList.length
  | _ => .error .typeError

/-- `v[i]` subscription with a non-negative integer index.  Indexing a
string yields a one-character string; indexing a string-keyed dict with an
integer raises `KeyError`; unsubscriptable values raise `TypeError`. -/
def pySub : PyVal → Nat → Except PyErr PyVal
  | .str s, i =>
    match s.toList[i]? with
    | some c => .ok (.str (String.mk [c]))
    | Option.none => .error .indexError
  | .list xs, i =>
    match xs.toList[i]? with
    | some v => .ok v
    | Option.none => .error .indexError
  | .dict _, _ => .error .keyError
  | _, _ => .error .typeError

/-- `v.get(k, dflt)`: dict lookup with default; `AttributeError` when `v`
is not a dict (non-dicts have no `.get`). -/
def pyGetD (v : PyVal) (k : String) (dflt : PyVal) : Except PyErr PyVal :=
  match v with
  | .dict kvs => .ok ((kvs.lookup k).getD dflt)
  | _ => .error .attributeError

/-- `for x in v`: iteration order — list elements, string characters, dict
keys; `TypeError` for non-iterables. -/
def pyIter : PyVal → Except PyErr (List PyVal)
  | .list xs => .ok xs.toList
  | .str s => .ok (s.toList.map (fun c => .str (String.mk [c])))
  | .dict kvs => .ok (kvs.toList.map (fun kv => .str kv.1))
  | _ => .error .typeError

/-- `a or b` on Python values: `a` if truthy, else `b`. -/
def pyOr (a b : PyVal) : PyVal := if pyTruthy a then a else b

/-- `x or dflt` for an `Optional[str]` argument (`None` and `""` are falsy). -/
def pyOrStr (x : Option String) (dflt : String) : String :=
  match x with
  | some s => if s = "" then dflt else s
  | Option.none => dflt

/-- Truthiness of an `Optional[str]` (`None` and `""` are falsy). -/
def optStrTruthy : Option String → Bool
  | some s => s ≠ ""
  | Option.none => false

/-- Truthiness of an `Optional[List[str]]` (`None` and `[]` are falsy). -/
def optListTruthy : Option (List String) → Bool
  | some xs => xs ≠ []
  | Option.none => false

/-- `v` left-padded with zeros to `n` digits. -/
def padZeros (n : Nat) (v : Nat) : String :=
  let s := toString v
  String.mk (List.replicate (n - s.length) '0') ++ s

/-- `f"{x:.2f}"` on the decimal value `m / 10^e`: fixed two-decimal
rendering, rounding half away from zero (Python rounds the underlying
binary double half-to-even; the two agree on the non-tie decimal values
that occur here). -/
def fmt2 (m : Int) (e : Nat) : String :=
  let p : Nat := 10 ^ e
  let c : Nat := (200 * m.natAbs + p) / (2 * p)
  (if m < 0 then "-" else "") ++ toString (c / 100) ++ "." ++ padZeros 2 (c % 100)

/-- `repr` of the decimal float `m / 10^e` (digits as given; the values in
play are exact decimals decoded from JSON). -/
def floatRepr (m : Int) (e : Nat) : String :=
  let p : Nat := 10 ^ e
  let a := m.natAbs
  (if m < 0 then "-" else "")
    ++ toString (a / p) ++ "." ++ (if e = 0 then "0" else padZeros e (a % p))

mutual
/-- `repr(v)` (used by `str` on the elements of containers). -/
def pyRepr : PyVal → String
  | .str s => "'" ++ s ++ "'"
  | .int n => toString n
  | .bool b => if b then "True" else "False"
  | .float m e => floatRepr m e
  | .pynone => "None"
  | .list xs => "[" ++ pyReprList xs ++ "]"
  | .dict kvs => "\x7b" ++ pyReprDict kvs ++ "\x7d"
def pyReprList : PyList → String
  | .nil => ""
  | .cons v .nil => pyRepr v
  | .cons v tl => pyRepr v ++ ", " ++ pyReprList tl
def pyReprDict : PyDict → String
  | .nil => ""
  | .cons k v .nil => "'" ++ k ++ "': " ++ pyRepr v
  | .cons k v tl => "'" ++ k ++ "': " ++ pyRepr v ++ ", " ++ pyReprDict tl
end

/-- `str(v)` / f-string interpolation of `v`. -/
def pyStr : PyVal → String
  | .str s => s
  | v => pyRepr v

/-- `f"{score:.2f}"` on an arbitrary value: formats numbers, raises for
strings (`ValueError`: unknown format code) and containers (`TypeError`). -/
def pyFormat2f : PyVal → Except PyErr String
  | .int n => .ok (fmt2 n 0)
  | .float m e => .ok (fmt2 m e)
  | .bool b => .ok (fmt2 (if b then 1 else 0) 0)
  | .str _ => .error .valueError
  | _ => .error .typeError

/-! ## `server.py` — result formatters -/

/-- Field extraction in `_format_single_memory`: `mem.get(k, "")` for a
dict; for non-dict values every field keeps its `""` default (the
`hasattr` branch is unreachable for decoded-JSON values, which carry no
such attributes). -/
def memField (mem : PyVal) (k : String) : PyVal :=
  match mem with
  | .dict kvs => (kvs.lookup k).getD (.str "")
  | _ => .str ""

/-- `_format_single_memory(mem, score)` (server.py:80-109). -/
def format_single_memory (mem : PyVal) (score : PyVal) : Except PyErr String := do
  let mem_type := memField mem "memory_type"
  let summary := memField mem "summary"
  let timestamp := memField mem "timestamp"
  let episode := memField mem "episode"
  let parts₁ ←
    if pyTruthy score then do
      let f ← pyFormat2f score
      pure ["[relevance: " ++ f ++ "]"]
    else pure []
  let parts₂ := if pyTruthy timestamp then ["(" ++ pyStr timestamp ++ ")"] else []
  let parts₃ := if pyTruthy mem_type then ["[" ++ pyStr mem_type ++ "]"] else []
  let header := String.intercalate " " (parts₁ ++ parts₂ ++ parts₃)
  let content := pyStr (pyOr episode (pyOr summary (.str "(no content)")))
  pure ("• " ++ header ++ "\n  " ++ content ++ "\n")

/-- `scores[i] if i < len(scores) and isinstance(scores[i], (int, float))
else 0` — flat-format score selection (server.py:74). -/
def flat_score_at (scores : PyVal) (i : Nat) : Except PyErr PyVal := do
  let n ← pyLen scores
  if i < n then do
    let v ← pySub scores i
    if isNum v then pure v else pure (.int 0)
  else pure (.int 0)

/-- `scores[i] if i < len(scores) and isinstance(scores[i], dict) else {}`
— grouped-format score-dict selection (server.py:66). -/
def grouped_score_dict_at (scores : PyVal) (i : Nat) : Except PyErr PyVal := do
  let n ← pyLen scores
  if i < n then do
    let v ← pySub scores i
    if isDict v then pure v else pure (.dict .nil)
  else pure (.dict .nil)

/-- `score_list[j] if j < len(score_list) else 0` (server.py:70). -/
def group_score_at (score_list : PyVal) (j : Nat) : Except PyErr PyVal := do
  let n ← pyLen score_list
  if j < n then pySub score_list j else pure (.int 0)

/-- Inner loop of the grouped branch: `for j, m in enumerate(mem_list if
isinstance(mem_list, list) else [mem_list])` (server.py:69-71). -/
def format_group_items (score_list : PyVal) : Nat → List PyVal → Except PyErr (List String)
  | _, [] => .ok []
  | j, m :: rest => do
    let s ← group_score_at score_list j
    let line ← format_single_memory m s
    let more ← format_group_items score_list (j + 1) rest
    pure (line :: more)

/-- One group of the grouped branch: score-dict selection, score-list
lookup by group key, group header, item loop (server.py:66-71). -/
def format_group (scores : PyVal) (i : Nat) (group_id : String) (mem_list : PyVal) :
    Except PyErr (List String) := do
  let score_dict ← grouped_score_dict_at scores i
  let score_list ← pyGetD score_dict group_id (.list .nil)
  let items := match mem_list with
    | .list xs => xs.toList
    | v => [v]
  let body ← format_group_items score_list 0 items
  pure (("── Group: " ++ group_id ++ " ──") :: body)

/-- `for group_id, mem_list in mem.items():` (server.py:65). -/
def format_groups (scores : PyVal) (i : Nat) : List (String × PyVal) → Except PyErr (List String)
  | [] => .ok []
  | (gid, mem_list) :: rest => do
    let here ← format_group scores i gid mem_list
    let more ← format_groups scores i rest
    pure (here ++ more)

/-- `isinstance(mem, dict) and any(isinstance(v, list) for v in
mem.values())` — grouped-format classification (server.py:63). -/
def isGroupedMem : PyVal → Bool
  | .dict kvs => kvs.toList.any (fun kv => isList kv.2)
  | _ => false

/-- One iteration of the main loop of `_format_search_results`: grouped or
flat handling of `memories[i]` (server.py:61-75). -/
def format_mem_entry (scores : PyVal) (i : Nat) (mem : PyVal) : Except PyErr (List String) :=
  if isGroupedMem mem then
    match mem with
    | .dict kvs => format_groups scores i kvs.toList
    | _ => .ok []
  else do
    let s ← flat_score_at scores i
    let line ← format_single_memory mem s
    pure [line]

/-- `for i, mem in enumerate(memories):` (server.py:61). -/
def format_entries (scores : PyVal) : Nat → List PyVal → Except PyErr (List String)
  | _, [] => .ok []
  | i, mem :: rest => do
    let here ← format_mem_entry scores i mem
    let more ← format_entries scores (i + 1) rest
    pure (here ++ more)

/-- `_format_search_results(data)` (server.py:49-77). -/
def format_search_results (data : PyVal) : Except PyErr String := do
  let result ← pyGetD data "result" data
  let memories ← pyGetD result "memories" (.list .nil)
  let scores ← pyGetD result "scores" (.list .nil)
  let total ← pyGetD result "total_count" (.int 0)
  if pyTruthy memories then do
    let mems ← pyIter memories
    let body ← format_entries scores 0 mems
    pure (String.intercalate "\n"
      (("Found " ++ pyStr total ++ " relevant memories:\n") :: body))
  else
    pure "No relevant memories found."

/-- Inner item loop of `_format_get_results` (server.py:125-126):
each item is formatted with the default score `0`. -/
def format_get_items : List PyVal → Except PyErr (List String)
  | [] => .ok []
  | m :: rest => do
    let line ← format_single_memory m (.int 0)
    let more ← format_get_items rest
    pure (line :: more)

/-- Group loop of `_format_get_results` (server.py:123-126): in the get
formatter every dict entry is treated as grouped (no list-value check). -/
def format_get_groups : List (String × PyVal) → Except PyErr (List String)
  | [] => .ok []
  | (gid, mem_list) :: rest => do
    let items := match mem_list with
      | .list xs => xs.toList
      | v => [v]
    let body ← format_get_items items
    let more ← format_get_groups rest
    pure ((("── Group: " ++ gid ++ " ──") :: body) ++ more)

/-- `for mem in memories:` of `_format_get_results` (server.py:121-128). -/
def format_get_entries : List PyVal → Except PyErr (List String)
  | [] => .ok []
  | mem :: rest => do
    let here ←
      match mem with
      | .dict kvs => format_get_groups kvs.toList
      | m => do
        let line ← format_single_memory m (.int 0)
        pure [line]
    let more ← format_get_entries rest
    pure (here ++ more)

/-- `_format_get_results(data)` (server.py:112-130). -/
def format_get_results (data : PyVal) : Except PyErr String := do
  let result ← pyGetD data "result" data
  let memories ← pyGetD result "memories" (.list .nil)
  if pyTruthy memories then do
    let n ← pyLen memories
    let mems ← pyIter memories
    let body ← format_get_entries mems
    pure (String.intercalate "\n"
      (("Retrieved " ++ toString n ++ " memories:\n") :: body))
  else
    pure "No memories found for this user."

/-! ## `evermemos_client.py` — configuration and request construction -/

/-- `DEFAULT_CLOUD_URL` (evermemos_client.py:18). -/
def DEFAULT_CLOUD_URL : String := "https://api.evermind.ai"

/-- `DEFAULT_LOCAL_URL` (evermemos_client.py:19). -/
def DEFAULT_LOCAL_URL : String := "http://localhost:1995"

/-- `DEFAULT_API_VERSION` (evermemos_client.py:20). -/
def DEFAULT_API_VERSION : String := "v1"

/-- The environment variables read by `EverMemOSClient.__init__`
(`none` = variable unset). -/
structure ClientEnv where
  api_key : Option String
  api_url : Option String
  api_version : Option String
deriving DecidableEq

/-- `s.rstrip("/")`. -/
def rstripSlashes (s : String) : String :=
  String.mk ((s.toList.reverse.dropWhile (fun c => c = '/')).reverse)

/-- The client configuration resolved by `EverMemOSClient.__init__`
(evermemos_client.py:26-48); immutable after construction. -/
structure EverMemOSClient where
  api_key : String
  api_version : String
  base_url : String
  memories_url : String
deriving DecidableEq

/-- `EverMemOSClient.__init__(api_key, base_url, api_version)`
(evermemos_client.py:26-48): `or`-chained resolution of the key and
version against the environment, then the base-URL priority chain
`base_url → EVERMEM_API_URL → cloud default (key set) → local default`. -/
def mkClient (api_key base_url api_version : Option String) (env : ClientEnv) :
    EverMemOSClient :=
  let key := pyOrStr api_key (env.api_key.getD "")
  let ver := pyOrStr api_version (env.api_version.getD DEFAULT_API_VERSION)
  let burl :=
    if optStrTruthy base_url then rstripSlashes (base_url.getD "")
    else if optStrTruthy env.api_url then rstripSlashes (env.api_url.getD "")
    else if key ≠ "" then DEFAULT_CLOUD_URL
    else DEFAULT_LOCAL_URL
  { api_key := key, api_version := ver, base_url := burl,
    memories_url := burl ++ "/api/" ++ ver ++ "/memories" }

/-- A JSON-body / query-parameter value in an outgoing request. -/
inductive ParamVal where
  | str (s : String)
  | int (n : Int)
  | strList (xs : List String)
deriving DecidableEq

/-- HTTP method of an outgoing request. -/
inductive HttpMethod where
  | get
  | post
  | delete
deriving DecidableEq

/-- An outgoing HTTP request: method, URL, and the field set sent either
as a JSON body or as query parameters. -/
structure HttpRequest where
  method : HttpMethod
  url : String
  payload : List (String × ParamVal)
deriving DecidableEq

/-- `EverMemOSClient._headers()` (evermemos_client.py:50-54). -/
def EverMemOSClient.headers (c : EverMemOSClient) : List (String × String) :=
  [("Content-Type", "application/json")]
  ++ (if c.api_key ≠ "" then [("Authorization", "Bearer " ++ c.api_key)] else [])

/-- The message payload built by `EverMemOSClient.add_memory`
(evermemos_client.py:101-138).  `flush = some true` models the key being
present in the payload (it is added only when the flag is true). -/
structure MemoryMessagePayload where
  message_id : String
  create_time : String
  sender : String
  sender_name : String
  group_id : String
  content : String
  role : String
  type : String
  scene : String
  flush : Option Bool
deriving DecidableEq

/-- `EverMemOSClient.add_memory` payload construction
(evermemos_client.py:101-138).  `uuidHex12` stands for
`uuid.uuid4().hex[:12]` and `now` for the UTC ISO-8601 timestamp, both
environment-supplied. -/
def EverMemOSClient.add_memory (content sender : String) (group_id : String)
    (sender_name : String) (role : String) (scene : String)
    (message_id : Option String) (flush : Bool) (uuidHex12 now : String) :
    MemoryMessagePayload :=
  let gid := if group_id = "" then sender ++ "_group" else group_id
  { message_id := pyOrStr message_id ("msg_" ++ uuidHex12)
    create_time := now
    sender := sender
    sender_name := if sender_name = "" then sender else sender_name
    group_id := gid
    content := content
    role := role
    type := "text"
    scene := scene
    flush := if flush then some true else Option.none }

/-- The `params` dict built by `EverMemOSClient.search_memories`
(evermemos_client.py:168-177): `group_id` and `memory_types` are included
only when truthy. -/
def search_params (query user_id : String) (group_id : Option String)
    (retrieve_method : String) (memory_types : Option (List String)) (top_k : Int) :
    List (String × ParamVal) :=
  [("user_id", ParamVal.str user_id), ("query", ParamVal.str query),
   ("retrieve_method", ParamVal.str retrieve_method), ("top_k", ParamVal.int top_k)]
  ++ (if optStrTruthy group_id then [("group_id", ParamVal.str (group_id.getD ""))] else [])
  ++ (if optListTruthy memory_types then
        [("memory_types", ParamVal.strList (memory_types.getD []))] else [])

/-- The request issued by `EverMemOSClient.search_memories`
(evermemos_client.py:149-196): POST with the params as JSON body when an
API key is configured (cloud), GET with the params as query parameters
otherwise (local), in both cases against `{memories_url}/search`. -/
def EverMemOSClient.search_memories (c : EverMemOSClient) (query user_id : String)
    (group_id : Option String) (retrieve_method : String)
    (memory_types : Option (List String)) (top_k : Int) : HttpRequest :=
  { method := if c.api_key ≠ "" then .post else .get
    url := c.memories_url ++ "/search"
    payload := search_params query user_id group_id retrieve_method memory_types top_k }

/-- The request issued by `EverMemOSClient.get_memories`
(evermemos_client.py:198-228): GET `{memories_url}` with query params. -/
def EverMemOSClient.get_memories (c : EverMemOSClient) (user_id memory_type : String)
    (group_id : Option String) (limit : Int) : HttpRequest :=
  { method := .get
    url := c.memories_url
    payload :=
      [("user_id", ParamVal.str user_id), ("memory_type", ParamVal.str memory_type),
       ("limit", ParamVal.int limit)]
      ++ (if optStrTruthy group_id then [("group_id", ParamVal.str (group_id.getD ""))] else []) }

/-- The request issued by `EverMemOSClient.delete_memories`
(evermemos_client.py:230-257): DELETE `{memories_url}` with a JSON body;
optional fields included only when truthy. -/
def EverMemOSClient.delete_memories (c : EverMemOSClient) (user_id : String)
    (group_id memory_type : Option String) : HttpRequest :=
  { method := .delete
    url := c.memories_url
    payload :=
      [("user_id", ParamVal.str user_id)]
      ++ (if optStrTruthy group_id then [("group_id", ParamVal.str (group_id.getD ""))] else [])
      ++ (if optStrTruthy memory_type then
            [("memory_type", ParamVal.str (memory_type.getD ""))] else []) }

/-! ## `server.py` — MCP tools

Each tool is modelled as a function of its parameters, the server
environment, and the behaviour of the client call(s) it makes
(`respond`, returning the decoded JSON body or the `str()` of the raised
exception).  The tool returns the text it hands back to the host. -/

/-- The environment variables read by the server module (`none` = unset). -/
structure ServerEnv where
  user_id : Option String
  group_id : Option String
deriving DecidableEq

/-- `DEFAULT_USER_ID = os.getenv("EVERMEM_USER_ID", "windsurf_user")`
(server.py:45). -/
def DEFAULT_USER_ID (env : ServerEnv) : String := env.user_id.getD "windsurf_user"

/-- `DEFAULT_GROUP_ID = os.getenv("EVERMEM_GROUP_ID", "windsurf_project")`
(server.py:46). -/
def DEFAULT_GROUP_ID (env : ServerEnv) : String := env.group_id.getD "windsurf_project"

/-- The argument record `store_memory` passes to `client.add_memory`
(server.py:167-174). -/
structure AddMemoryArgs where
  content : String
  sender : String
  group_id : String
  sender_name : String
  role : String
  flush : Bool
deriving DecidableEq

/-- A client call made by `store_memory`, in order. -/
inductive StoreEvent where
  | metaCall (group_id : String)
  | addCall (args : AddMemoryArgs)
deriving DecidableEq

/-- Success text of `store_memory` (server.py:176-180). -/
def store_success_text (result : PyVal) : Except PyErr String := do
  let status ← pyGetD result "status" (.str "unknown")
  let message ← pyGetD result "message" (.str "")
  let request_id ← pyGetD result "request_id" (.str "")
  pure ("Memory stored successfully.\n- Status: " ++ pyStr status
    ++ "\n- Message: " ++ pyStr message ++ "\n- Request ID: " ++ pyStr request_id)

/-- `store_memory` tool (server.py:136-184).  Returns the trace of client
calls and the text handed to the host.  `_metaResult` is the outcome of
the `save_conversation_meta` pre-step: the code wraps that call in
`try/except: pass`, so the result is discarded and a failure changes
nothing. -/
def store_memory (env : ServerEnv) (content role : String)
    (sender group_id : Option String) (flush : Bool)
    (_metaResult : Except String PyVal)
    (respond : AddMemoryArgs → Except String PyVal) : List StoreEvent × String :=
  let user_id := pyOrStr sender (DEFAULT_USER_ID env)
  let gid := pyOrStr group_id (DEFAULT_GROUP_ID env)
  let args : AddMemoryArgs :=
    { content := content, sender := user_id, group_id := gid,
      sender_name := user_id, role := role, flush := flush }
  let trace : List StoreEvent := [.metaCall gid, .addCall args]
  let text :=
    match respond args with
    | .error e => "Failed to store memory: " ++ e
    | .ok result =>
      match store_success_text result with
      | .ok s => s
      | .error e => "Failed to store memory: " ++ pyErrMsg e
  (trace, text)

/-- The argument record `search_memory` passes to `client.search_memories`
(server.py:212-218). -/
structure SearchMemoriesArgs where
  query : String
  user_id : String
  group_id : Option String
  retrieve_method : String
  top_k : Int
deriving DecidableEq

/-- Argument construction of the `search_memory` tool (server.py:209-218):
default user id, `top_k` clamped to `min(top_k, 20)`. -/
def search_memory_args (env : ServerEnv) (query : String) (user_id group_id : Option String)
    (retrieve_method : String) (top_k : Int) : SearchMemoriesArgs :=
  { query := query, user_id := pyOrStr user_id (DEFAULT_USER_ID env),
    group_id := group_id, retrieve_method := retrieve_method,
    top_k := min top_k 20 }

/-- `search_memory` tool (server.py:187-224). -/
def search_memory (env : ServerEnv) (query : String) (user_id group_id : Option String)
    (retrieve_method : String) (top_k : Int)
    (respond : SearchMemoriesArgs → Except String PyVal) : String :=
  match respond (search_memory_args env query user_id group_id retrieve_method top_k) with
  | .error e => "Failed to search memory: " ++ e
  | .ok result =>
    match format_search_results result with
    | .ok s => s
    | .error e => "Failed to search memory: " ++ pyErrMsg e

/-- The argument record `get_memories` passes to `client.get_memories`
(server.py:248-253). -/
structure GetMemoriesArgs where
  user_id : String
  memory_type : String
  group_id : Option String
  limit : Int
deriving DecidableEq

/-- Argument construction of the `get_memories` tool (server.py:245-253):
default user id, `limit` clamped to `min(limit, 50)`. -/
def get_memories_args (env : ServerEnv) (user_id : Option String) (memory_type : String)
    (group_id : Option String) (limit : Int) : GetMemoriesArgs :=
  { user_id := pyOrStr user_id (DEFAULT_USER_ID env), memory_type := memory_type,
    group_id := group_id, limit := min limit 50 }

/-- `get_memories` tool (server.py:227-259). -/
def get_memories (env : ServerEnv) (user_id : Option String) (memory_type : String)
    (group_id : Option String) (limit : Int)
    (respond : GetMemoriesArgs → Except String PyVal) : String :=
  match respond (get_memories_args env user_id memory_type group_id limit) with
  | .error e => "Failed to get memories: " ++ e
  | .ok result =>
    match format_get_results result with
    | .ok s => s
    | .error e => "Failed to get memories: " ++ pyErrMsg e

/-- The argument record `delete_memory` passes to `client.delete_memories`
(server.py:281-285). -/
structure DeleteMemoryArgs where
  user_id : String
  group_id : Option String
  memory_type : Option String
deriving DecidableEq

/-- Success text of `delete_memory` (server.py:287-289). -/
def delete_success_text (result : PyVal) : Except PyErr String := do
  let status ← pyGetD result "status" (.str "unknown")
  let message ← pyGetD result "message" (.str "")
  pure ("Delete completed.\n- Status: " ++ pyStr status ++ "\n- Message: " ++ pyStr message)

/-- `delete_memory` tool (server.py:262-293). -/
def delete_memory (env : ServerEnv) (user_id group_id memory_type : Option String)
    (respond : DeleteMemoryArgs → Except String PyVal) : String :=
  match respond { user_id := pyOrStr user_id (DEFAULT_USER_ID env),
                  group_id := group_id, memory_type := memory_type } with
  | .error e => "Failed to delete memory: " ++ e
  | .ok result =>
    match delete_success_text result with
    | .ok s => s
    | .error e => "Failed to delete memory: " ++ pyErrMsg e

/-! ## Concrete example values used by the claims -/

/-- Substring test: `sub in s` (executable, used to state "output
contains …" facts). -/
def strContains (s sub : String) : Bool :=
  (List.range (s.length + 1)).any (fun i => sub.toList.isPrefixOf (s.toList.drop i))

/-- The spec's flat single memory example:
`{"memory_type": "episodic_memory", "summary": "likes Python",
"timestamp": "2024-01-01T00:00:00Z"}`. -/
def exFlatMemory : PyVal := pyDictOf
  [("memory_type", .str "episodic_memory"), ("summary", .str "likes Python"),
   ("timestamp", .str "2024-01-01T00:00:00Z")]

/-- The spec's grouped example with no matching score entry: a response
whose `memories` is `[{"proj1": [{"episode": "deployed via Docker"}]}]`
and whose `scores` is empty. -/
def exGroupedNoScore : PyVal := pyDictOf
  [("memories", pyListOf
      [pyDictOf [("proj1", pyListOf [pyDictOf [("episode", .str "deployed via Docker")]])]]),
   ("scores", pyListOf [])]

/-- A search response whose positional scores entry is a dict whose value
at the group key is an `int` rather than a list:
`memories = [{"g": [{}]}]`, `scores = [{"g": 3}]`. -/
def exMistypedGroupScores : PyVal := pyDictOf
  [("memories", pyListOf [pyDictOf [("g", pyListOf [pyDictOf []])]]),
   ("scores", pyListOf [pyDictOf [("g", .int 3)]])]

/-- A flat record that happens to contain a list-valued field:
`{"summary": "likes Python", "tags": ["a"]}`. -/
def exListValuedRecord : PyDict := PyDict.ofList
  [("summary", .str "likes Python"), ("tags", pyListOf [.str "a"])]

/-! ## Claims -/

/-- C5: For a flat single memory record with `memory_type`, `summary` and
`timestamp` fields, formatted with score `0.87`, the output contains
`[relevance: 0.87]` (two-decimal fixed format), the timestamp, the memory
type tag, and the body text; the body text is the record's `episode`
field if present, else its `summary` field, else `"(no content)"`. -/
theorem single_memory_rendering :
    format_single_memory exFlatMemory (.float 87 2)
      = .ok "• [relevance: 0.87] (2024-01-01T00:00:00Z) [episodic_memory]\n  likes Python\n"
  ∧ strContains
      "• [relevance: 0.87] (2024-01-01T00:00:00Z) [episodic_memory]\n  likes Python\n"
      "[relevance: 0.87]" = true
  ∧ strContains
      "• [relevance: 0.87] (2024-01-01T00:00:00Z) [episodic_memory]\n  likes Python\n"
      "(2024-01-01T00:00:00Z)" = true
  ∧ strContains
      "• [relevance: 0.87] (2024-01-01T00:00:00Z) [episodic_memory]\n  likes Python\n"
      "[episodic_memory]" = true
  ∧ strContains
      "• [relevance: 0.87] (2024-01-01T00:00:00Z) [episodic_memory]\n  likes Python\n"
      "likes Python" = true
  ∧ format_single_memory (pyDictOf [("episode", .str "E"), ("summary", .str "S")]) (.int 0)
      = .ok "• \n  E\n"
  ∧ format_single_memory (pyDictOf [("summary", .str "S")]) (.int 0) = .ok "• \n  S\n"
  ∧ format_single_memory (pyDictOf []) (.int 0) = .ok "• \n  (no content)\n" := by
  refine ⟨rfl, by decide, by decide, by decide, by decide, rfl, rfl, rfl⟩

/-- C6: `add_memory` called without an explicit `group_id` (the Python
default is the empty string, and an explicitly passed empty string takes
the same branch) puts `f"{sender}_group"` in the payload. -/
theorem add_memory_default_group_id (content sender sender_name role scene : String)
    (message_id : Option String) (flush : Bool) (uuidHex12 now : String) :
    (EverMemOSClient.add_memory content sender "" sender_name role scene
        message_id flush uuidHex12 now).group_id = sender ++ "_group" := by
  simp [EverMemOSClient.add_memory]

/-- C7: `store_memory` attempts `save_conversation_meta` first for the
resolved group id; any failure of that pre-step is swallowed — the tool's
trace and returned text are the same for every meta outcome, and
`add_memory` is still called afterwards with the same resolved sender and
group id. -/
theorem store_memory_meta_failure_swallowed (env : ServerEnv) (content role : String)
    (sender group_id : Option String) (flush : Bool)
    (m1 m2 : Except String PyVal) (respond : AddMemoryArgs → Except String PyVal) :
    store_memory env content role sender group_id flush m1 respond
      = store_memory env content role sender group_id flush m2 respond
  ∧ (store_memory env content role sender group_id flush m1 respond).1
      = [.metaCall (pyOrStr group_id (DEFAULT_GROUP_ID env)),
         .addCall { content := content, sender := pyOrStr sender (DEFAULT_USER_ID env),
                    group_id := pyOrStr group_id (DEFAULT_GROUP_ID env),
                    sender_name := pyOrStr sender (DEFAULT_USER_ID env),
                    role := role, flush := flush }] :=
  ⟨rfl, rfl⟩

/-- C1: For every tool operation (`store_memory`, `search_memory`,
`get_memories`, `delete_memory`) and every input, if the underlying
client call raises any error `e`, the tool does not raise (each tool is a
total function here, mirroring the enclosing `try/except`): it returns
exactly `"Failed to <operation>: " ++ e` — a string beginning with
"Failed to" plus the operation name and containing the error detail. -/
theorem tools_fail_closed_on_client_error
    (env : ServerEnv) (content role query retrieve_method memory_type : String)
    (sender group_id user_id memory_type_f : Option String) (flush : Bool)
    (top_k limit : Int) (meta : Except String PyVal) (e : String)
    (respondA : AddMemoryArgs → Except String PyVal)
    (respondS : SearchMemoriesArgs → Except String PyVal)
    (respondG : GetMemoriesArgs → Except String PyVal)
    (respondD : DeleteMemoryArgs → Except String PyVal) :
    (respondA { content := content, sender := pyOrStr sender (DEFAULT_USER_ID env),
                group_id := pyOrStr group_id (DEFAULT_GROUP_ID env),
                sender_name := pyOrStr sender (DEFAULT_USER_ID env),
                role := role, flush := flush } = .error e →
      (store_memory env content role sender group_id flush meta respondA).2
        = "Failed to store memory: " ++ e)
  ∧ (respondS (search_memory_args env query user_id group_id retrieve_method top_k)
        = .error e →
      search_memory env query user_id group_id retrieve_method top_k respondS
        = "Failed to search memory: " ++ e)
  ∧ (respondG (get_memories_args env user_id memory_type group_id limit) = .error e →
      get_memories env user_id memory_type group_id limit respondG
        = "Failed to get memories: " ++ e)
  ∧ (respondD { user_id := pyOrStr user_id (DEFAULT_USER_ID env),
                group_id := group_id, memory_type := memory_type_f } = .error e →
      delete_memory env user_id group_id memory_type_f respondD
        = "Failed to delete memory: " ++ e) := by
  refine ⟨fun h => ?_, fun h => ?_, fun h => ?_, fun h => ?_⟩ <;>
    simp only [store_memory, search_memory, get_memories, delete_memory, h]

/-- Closed instance of C1: each hypothesis discharged at a concrete
erroring client. -/
theorem tools_fail_closed_on_client_error_witness :
    (store_memory ⟨Option.none, Option.none⟩ "c" "user" Option.none Option.none false
        (.ok .pynone) (fun _ => .error "boom")).2 = "Failed to store memory: boom"
  ∧ search_memory ⟨Option.none, Option.none⟩ "q" Option.none Option.none "keyword" 5
        (fun _ => .error "boom") = "Failed to search memory: boom"
  ∧ get_memories ⟨Option.none, Option.none⟩ Option.none "episodic_memory" Option.none 10
        (fun _ => .error "boom") = "Failed to get memories: boom"
  ∧ delete_memory ⟨Option.none, Option.none⟩ Option.none Option.none Option.none
        (fun _ => .error "boom") = "Failed to delete memory: boom" := by
  obtain ⟨h1, h2, h3, h4⟩ :=
    tools_fail_closed_on_client_error ⟨Option.none, Option.none⟩ "c" "user" "q" "keyword"
      "episodic_memory" Option.none Option.none Option.none Option.none false 5 10
      (.ok .pynone) "boom" (fun _ => .error "boom") (fun _ => .error "boom")
      (fun _ => .error "boom") (fun _ => .error "boom")
  exact ⟨h1 rfl, h2 rfl, h3 rfl, h4 rfl⟩

/-- C2: `EverMemOSClient` construction resolves the base URL with the
strict priority: truthy explicit `base_url` argument (trailing slashes
stripped) → truthy `EVERMEM_API_URL` (trailing slashes stripped) → cloud
default when the resolved API key is non-empty → local default.  In
particular, with nothing set (or an empty API key) the base URL is the
local default, and with only an API key set it is the cloud default. -/
theorem base_url_resolution_priority
    (api_key base_url api_version : Option String) (env : ClientEnv) (k : String) :
    (optStrTruthy base_url = true →
      (mkClient api_key base_url api_version env).base_url
        = rstripSlashes (base_url.getD ""))
  ∧ (optStrTruthy base_url = false → optStrTruthy env.api_url = true →
      (mkClient api_key base_url api_version env).base_url
        = rstripSlashes (env.api_url.getD ""))
  ∧ (optStrTruthy base_url = false → optStrTruthy env.api_url = false →
      (mkClient api_key base_url api_version env).api_key ≠ "" →
      (mkClient api_key base_url api_version env).base_url = DEFAULT_CLOUD_URL)
  ∧ (optStrTruthy base_url = false → optStrTruthy env.api_url = false →
      (mkClient api_key base_url api_version env).api_key = "" →
      (mkClient api_key base_url api_version env).base_url = DEFAULT_LOCAL_URL)
  ∧ (mkClient Option.none Option.none Option.none
        ⟨Option.none, Option.none, Option.none⟩).base_url = DEFAULT_LOCAL_URL
  ∧ (mkClient (some "") Option.none Option.none
        ⟨Option.none, Option.none, Option.none⟩).base_url = DEFAULT_LOCAL_URL
  ∧ (k ≠ "" →
      (mkClient Option.none Option.none Option.none
        ⟨some k, Option.none, Option.none⟩).base_url = DEFAULT_CLOUD_URL) := by
  refine ⟨fun h => ?_, fun h1 h2 => ?_, fun h1 h2 h3 => ?_, fun h1 h2 h3 => ?_, rfl, rfl,
    fun hk => ?_⟩
  · simp [mkClient, h]
  · simp [mkClient, h1, h2]
  · simp only [mkClient] at h3 ⊢
    simp [h1, h2, h3]
  · simp only [mkClient] at h3 ⊢
    simp [h1, h2, h3]
  · simp [mkClient, pyOrStr, optStrTruthy, hk]

/-- Closed instance of C2: each hypothesis discharged at a concrete
configuration. -/
theorem base_url_resolution_priority_witness :
    (mkClient (some "key") (some "http://h//") Option.none
        ⟨Option.none, some "http://e", Option.none⟩).base_url = "http://h"
  ∧ (mkClient (some "key") Option.none Option.none
        ⟨Option.none, some "http://e//", Option.none⟩).base_url = "http://e"
  ∧ (mkClient Option.none Option.none Option.none
        ⟨some "key", Option.none, Option.none⟩).base_url = DEFAULT_CLOUD_URL := by
  refine ⟨?_, ?_, ?_⟩
  · have h := (base_url_resolution_priority (some "key") (some "http://h//") Option.none
      ⟨Option.none, some "http://e", Option.none⟩ "key").1 (by decide)
    rw [h]; decide
  · have h := ((base_url_resolution_priority (some "key") Option.none Option.none
      ⟨Option.none, some "http://e//", Option.none⟩ "key").2.1) (by decide) (by decide)
    rw [h]; decide
  · exact (base_url_resolution_priority Option.none Option.none Option.none
      ⟨some "key", Option.none, Option.none⟩ "key").2.2.2.2.2.2 (by decide)

/-- C3: `search_memory` forwards `min(top_k, 20)` (never more than 20),
`get_memories` forwards `min(limit, 50)` (never more than 50), and the
clamping is idempotent: re-clamping a forwarded value leaves it
unchanged, and the whole tool behaves identically on `top_k` and
`min top_k 20` (resp. `limit` and `min limit 50`). -/
theorem top_k_limit_clamping (env : ServerEnv)
    (query memory_type retrieve_method : String) (user_id group_id : Option String)
    (top_k limit : Int)
    (respondS : SearchMemoriesArgs → Except String PyVal)
    (respondG : GetMemoriesArgs → Except String PyVal) :
    (search_memory_args env query user_id group_id retrieve_method top_k).top_k
      = min top_k 20
  ∧ (search_memory_args env query user_id group_id retrieve_method top_k).top_k ≤ 20
  ∧ (get_memories_args env user_id memory_type group_id limit).limit = min limit 50
  ∧ (get_memories_args env user_id memory_type group_id limit).limit ≤ 50
  ∧ (search_memory_args env query user_id group_id retrieve_method
        ((search_memory_args env query user_id group_id retrieve_method top_k).top_k)).top_k
      = (search_memory_args env query user_id group_id retrieve_method top_k).top_k
  ∧ (get_memories_args env user_id memory_type group_id
        ((get_memories_args env user_id memory_type group_id limit).limit)).limit
      = (get_memories_args env user_id memory_type group_id limit).limit
  ∧ search_memory env query user_id group_id retrieve_method top_k respondS
      = search_memory env query user_id group_id retrieve_method (min top_k 20) respondS
  ∧ get_memories env user_id memory_type group_id limit respondG
      = get_memories env user_id memory_type group_id (min limit 50) respondG := by
  have hs : min (min top_k 20) 20 = min top_k 20 := by omega
  have hg : min (min limit 50) 50 = min limit 50 := by omega
  refine ⟨rfl, ?_, rfl, ?_, ?_, ?_, ?_, ?_⟩
  · simp [search_memory_args]
  · simp [get_memories_args]
  · simp [search_memory_args, hs]
  · simp [get_memories_args, hg]
  · simp [search_memory, search_memory_args, hs]
  · simp [get_memories, get_memories_args, hg]

/-- C9: the tool-layer clamping enforces only an upper bound — every
`top_k ≤ 20` (zero and negatives included) is forwarded unchanged by
`search_memory`, and every `limit ≤ 50` unchanged by `get_memories`; no
lower bound of 1 is imposed. -/
theorem clamping_has_no_lower_bound (env : ServerEnv)
    (query memory_type retrieve_method : String) (user_id group_id : Option String)
    (top_k limit : Int) (hk : top_k ≤ 20) (hl : limit ≤ 50) :
    (search_memory_args env query user_id group_id retrieve_method top_k).top_k = top_k
  ∧ (get_memories_args env user_id memory_type group_id limit).limit = limit := by
  constructor
  · simp [search_memory_args]; omega
  · simp [get_memories_args]; omega

/-- Closed instance of C9: a negative `top_k` and a zero `limit` pass
through the clamp unchanged. -/
theorem clamping_has_no_lower_bound_witness :
    (search_memory_args ⟨Option.none, Option.none⟩ "q" Option.none Option.none
        "keyword" (-3)).top_k = -3
  ∧ (get_memories_args ⟨Option.none, Option.none⟩ Option.none "episodic_memory"
        Option.none 0).limit = 0 :=
  clamping_has_no_lower_bound ⟨Option.none, Option.none⟩ "q" "episodic_memory" "keyword"
    Option.none Option.none (-3) 0 (by decide) (by decide)

/-- C8: `search_memories` issues a POST to the search endpoint when the
client's API key is non-empty and a GET to the same endpoint when it is
empty; the field set sent (JSON body resp. query parameters) is the same
in both cases — it does not depend on the client configuration at all —
and `group_id` / `memory_types` are included exactly when truthy. -/
theorem search_transport_policy (c c2 : EverMemOSClient) (query user_id : String)
    (group_id : Option String) (retrieve_method : String)
    (memory_types : Option (List String)) (top_k : Int) :
    (c.api_key ≠ "" →
      (EverMemOSClient.search_memories c query user_id group_id retrieve_method
        memory_types top_k).method = .post)
  ∧ (c.api_key = "" →
      (EverMemOSClient.search_memories c query user_id group_id retrieve_method
        memory_types top_k).method = .get)
  ∧ (EverMemOSClient.search_memories c query user_id group_id retrieve_method
        memory_types top_k).url = c.memories_url ++ "/search"
  ∧ (EverMemOSClient.search_memories c query user_id group_id retrieve_method
        memory_types top_k).payload
      = search_params query user_id group_id retrieve_method memory_types top_k
  ∧ (EverMemOSClient.search_memories c query user_id group_id retrieve_method
        memory_types top_k).payload
      = (EverMemOSClient.search_memories c2 query user_id group_id retrieve_method
        memory_types top_k).payload
  ∧ ("group_id" ∈ (search_params query user_id group_id retrieve_method
        memory_types top_k).map Prod.fst ↔ optStrTruthy group_id = true)
  ∧ ("memory_types" ∈ (search_params query user_id group_id retrieve_method
        memory_types top_k).map Prod.fst ↔ optListTruthy memory_types = true) := by
  refine ⟨fun h => ?_, fun h => ?_, rfl, rfl, rfl, ?_, ?_⟩
  · simp [EverMemOSClient.search_memories, h]
  · simp [EverMemOSClient.search_memories, h]
  · by_cases hg : optStrTruthy group_id = true <;>
      by_cases hm : optListTruthy memory_types = true <;>
      simp [search_params, hg, hm]
  · by_cases hg : optStrTruthy group_id = true <;>
      by_cases hm : optListTruthy memory_types = true <;>
      simp [search_params, hg, hm]

/-- Closed instance of C8: with an API key the request is a POST, without
one it is a GET, against the same endpoint with the same fields. -/
theorem search_transport_policy_witness :
    (EverMemOSClient.search_memories
        (mkClient (some "key") Option.none Option.none
          ⟨Option.none, Option.none, Option.none⟩)
        "q" "u" Option.none "hybrid" Option.none 10).method = .post
  ∧ (EverMemOSClient.search_memories
        (mkClient Option.none Option.none Option.none
          ⟨Option.none, Option.none, Option.none⟩)
        "q" "u" Option.none "hybrid" Option.none 10).method = .get := by
  constructor
  · exact (search_transport_policy
      (mkClient (some "key") Option.none Option.none
        ⟨Option.none, Option.none, Option.none⟩)
      (mkClient (some "key") Option.none Option.none
        ⟨Option.none, Option.none, Option.none⟩)
      "q" "u" Option.none "hybrid" Option.none 10).1 (by decide)
  · exact (search_transport_policy
      (mkClient Option.none Option.none Option.none
        ⟨Option.none, Option.none, Option.none⟩)
      (mkClient Option.none Option.none Option.none
        ⟨Option.none, Option.none, Option.none⟩)
      "q" "u" Option.none "hybrid" Option.none 10).2.1 (by decide)

/-- Helper: binding a successful `Except` computation just applies the
continuation. -/
theorem ok_bind {ε α β : Type} (a : α) (f : α → Except ε β) :
    (Except.ok a : Except ε α) >>= f = f a := rfl

/-- Helper: a successful `Except` bind factors through a successful first
step. -/
theorem except_bind_ok {ε α β : Type} {x : Except ε α} {f : α → Except ε β} {c : β}
    (h : x >>= f = .ok c) : ∃ b, x = .ok b ∧ f b = .ok c := by
  cases x with
  | error e =>
    rw [show (Except.error e : Except ε α) >>= f = .error e from rfl] at h
    cases h
  | ok b => exact ⟨b, rfl, h⟩

/-- Helper: a successfully rendered group starts with (hence contains)
its group header. -/
theorem format_group_header_mem (scores : PyVal) (i : Nat) (gid : String)
    (mem_list : PyVal) (hs : List String)
    (h : format_group scores i gid mem_list = .ok hs) :
    ("── Group: " ++ gid ++ " ──") ∈ hs := by
  unfold format_group at h
  obtain ⟨sd, h1, h⟩ := except_bind_ok h
  obtain ⟨sl, h2, h⟩ := except_bind_ok h
  obtain ⟨body, h3, h⟩ := except_bind_ok h
  rw [show (pure (("── Group: " ++ gid ++ " ──") :: body) : Except PyErr (List String))
        = .ok (("── Group: " ++ gid ++ " ──") :: body) from rfl] at h
  cases h
  exact List.mem_cons_self _ _

/-- Helper: a successful run of the grouped branch renders a header for
every key of the grouped entry. -/
theorem format_groups_header_mem (scores : PyVal) (i : Nat) :
    ∀ (l : List (String × PyVal)) (lines : List String),
      format_groups scores i l = .ok lines →
      ∀ kv ∈ l, ("── Group: " ++ kv.1 ++ " ──") ∈ lines := by
  intro l
  induction l with
  | nil => intro lines _ kv hkv; cases hkv
  | cons hd tl ih =>
    obtain ⟨gid, ml⟩ := hd
    intro lines h kv hkv
    unfold format_groups at h
    obtain ⟨here, h1, h⟩ := except_bind_ok h
    obtain ⟨more, h2, h⟩ := except_bind_ok h
    rw [show (pure (here ++ more) : Except PyErr (List String)) = .ok (here ++ more)
          from rfl] at h
    cases h
    rcases List.mem_cons.mp hkv with rfl | hkv
    · exact List.mem_append_left _ (format_group_header_mem scores i gid ml here h1)
    · exact List.mem_append_right _ (ih more h2 kv hkv)

/-- C10: the search formatter classifies an entry as grouped exactly when
it is a dict at least one of whose values is a list; a grouped entry then
gets a group header rendered for each of its keys, with non-list values
wrapped into singleton item lists; consequently a flat record carrying a
list-valued field (`{"summary": "likes Python", "tags": ["a"]}`) renders
as groups named after its field names instead of one flat memory line. -/
theorem grouped_classification_and_rendering (kvs : PyDict) (scores : PyVal) (i : Nat) :
    (isGroupedMem (.dict kvs) = true ↔ ∃ kv ∈ kvs.toList, isList kv.2 = true)
  ∧ (∀ v : PyVal, isGroupedMem v = true → isDict v = true)
  ∧ (∀ lines, format_groups scores i kvs.toList = .ok lines →
      ∀ kv ∈ kvs.toList, ("── Group: " ++ kv.1 ++ " ──") ∈ lines)
  ∧ format_mem_entry (pyListOf []) 0 (.dict exListValuedRecord)
      = .ok ["── Group: summary ──", "• \n  (no content)\n",
             "── Group: tags ──", "• \n  (no content)\n"] := by
  refine ⟨?_, ?_, ?_, rfl⟩
  · simp [isGroupedMem, List.any_eq_true]
  · intro v hv
    cases v <;> simp_all [isGroupedMem, isDict]
  · intro lines h kv hkv
    exact format_groups_header_mem scores i kvs.toList lines h kv hkv

/-- Closed instance of C10: the list-valued-field record renders with a
group header per field, obtained through the theorem. -/
theorem grouped_classification_and_rendering_witness :
    ("── Group: tags ──") ∈ ["── Group: summary ──", "• \n  (no content)\n",
        "── Group: tags ──", "• \n  (no content)\n"] := by
  have h := (grouped_classification_and_rendering exListValuedRecord (pyListOf []) 0).2.2.1
    ["── Group: summary ──", "• \n  (no content)\n",
     "── Group: tags ──", "• \n  (no content)\n"]
    rfl ("tags", pyListOf [.str "a"]) (by decide)
  exact h

/-- C4 counterexample: the claim says a type-mismatched score entry makes
the score default to 0 without raising; but on
`memories = [{"g": [{}]}]`, `scores = [{"g": 3}]` — the scores entry is a
dict whose value at the group key is an `int` instead of a list — the
formatter raises a `TypeError` (from `len(score_list)`). -/
theorem formatter_raises_on_mistyped_group_scores :
    format_search_results exMistypedGroupScores = .error .typeError := rfl

/-- C4 amended: score alignment defaults to 0 without raising whenever
the positional scores entry is missing (index out of range) or not of the
expected top-level type (non-dict in the grouped case, non-number in the
flat case), whenever the group key is absent from the scores dict, and
whenever the index exceeds a list-valued group score list — in
particular, the spec's grouped memory with no matching score entry
formats without error and without a relevance part; but a scores entry
that is a dict whose value at the group key is not a list makes the
formatter raise instead of defaulting. -/
theorem score_defaulting_amended :
    (∀ (xs : PyList) (i : Nat), xs.toList.length ≤ i →
        flat_score_at (.list xs) i = .ok (.int 0))
  ∧ (∀ (xs : PyList) (i : Nat) (v : PyVal), xs.toList[i]? = some v → isNum v = false →
        flat_score_at (.list xs) i = .ok (.int 0))
  ∧ (∀ (xs : PyList) (i : Nat), xs.toList.length ≤ i →
        grouped_score_dict_at (.list xs) i = .ok (.dict .nil))
  ∧ (∀ (xs : PyList) (i : Nat) (v : PyVal), xs.toList[i]? = some v → isDict v = false →
        grouped_score_dict_at (.list xs) i = .ok (.dict .nil))
  ∧ (∀ (xs : PyList) (j : Nat), xs.toList.length ≤ j →
        group_score_at (.list xs) j = .ok (.int 0))
  ∧ (∀ (d : PyDict) (gid : String), d.lookup gid = Option.none →
        pyGetD (.dict d) gid (.list .nil) = .ok (.list .nil))
  ∧ format_search_results exGroupedNoScore
      = .ok "Found 0 relevant memories:\n\n── Group: proj1 ──\n• \n  deployed via Docker\n" := by
  refine ⟨?_, ?_, ?_, ?_, ?_, ?_, rfl⟩
  · intro xs i h
    simp [flat_score_at, pyLen, ok_bind, Nat.not_lt.mpr h, pure, Except.pure]
  · intro xs i v hv hn
    have hi : i < xs.toList.length := by
      by_contra hc
      rw [List.getElem?_eq_none (by omega)] at hv
      cases hv
    have hsub : pySub (.list xs) i = .ok v := by simp [pySub, hv]
    simp [flat_score_at, pyLen, ok_bind, hi, hsub, hn]
  · intro xs i h
    simp [grouped_score_dict_at, pyLen, ok_bind, Nat.not_lt.mpr h, pure, Except.pure]
  · intro xs i v hv hd
    have hi : i < xs.toList.length := by
      by_contra hc
      rw [List.getElem?_eq_none (by omega)] at hv
      cases hv
    have hsub : pySub (.list xs) i = .ok v := by simp [pySub, hv]
    simp [grouped_score_dict_at, pyLen, ok_bind, hi, hsub, hd]
  · intro xs j h
    simp [group_score_at, pyLen, ok_bind, Nat.not_lt.mpr h, pure, Except.pure]
  · intro d gid h
    simp [pyGetD, h]

/-- Closed instance of the amended C4: the defaulting cases discharged at
concrete inputs. -/
theorem score_defaulting_amended_witness :
    flat_score_at (.list .nil) 0 = .ok (.int 0)
  ∧ flat_score_at (.list (.cons (.str "x") .nil)) 0 = .ok (.int 0)
  ∧ grouped_score_dict_at (.list .nil) 1 = .ok (.dict .nil)
  ∧ group_score_at (.list .nil) 0 = .ok (.int 0)
  ∧ pyGetD (.dict (.cons "other" (.int 1) .nil)) "proj1" (.list .nil) = .ok (.list .nil) :=
  ⟨score_defaulting_amended.1 .nil 0 (by decide),
   score_defaulting_amended.2.1 (.cons (.str "x") .nil) 0 (.str "x") (by decide) (by decide),
   score_defaulting_amended.2.2.1 .nil 1 (by decide),
   score_defaulting_amended.2.2.2.2.1 .nil 0 (by decide),
   score_defaulting_amended.2.2.2.2.2.1 (.cons "other" (.int 1) .nil) "proj1" (by decide)⟩

end EverMemOS
